import Mathlib

/-!
Shallow embedding of the credential-acquisition flow of the
terraform-provider-openhue repository (internal/config/auth.go,
internal/provider/provider.go, internal/resources/room.go).

External effects (user home directory lookup, cache file contents, bridge
discovery, the bridge's pairing responses, cache write success) are modelled
as an explicit `World` of oracles; the functions below mirror the Go control
flow over that world and additionally record a `Trace` of how many times each
collaborator was invoked.
-/

namespace Openhue

/-- Association-list lookup keyed by strings, mirroring map/config lookups. -/
def lookupKey {α : Type} (key : String) : List (String × α) → Option α
  | [] => none
  | (k, v) :: rest => if key = k then some v else lookupKey key rest

/-- Model of a `viper.Viper` instance: `Set` overrides, `AutomaticEnv`,
the parsed config file contents, and `SetDefault` defaults. -/
structure ViperInstance where
  overrides : List (String × String)
  envEnabled : Bool
  configData : List (String × String)
  defaults : List (String × String)
deriving Repr, DecidableEq

/-- ASCII upper-casing of one character. -/
def asciiUpper (c : Char) : Char :=
  if 'a' ≤ c ∧ c ≤ 'z' then Char.ofNat (c.toNat - 32) else c

/-- Viper's `AutomaticEnv` looks the key up in the environment upper-cased
(`strings.ToUpper`; the keys involved are ASCII). -/
def envKey (key : String) : String := ⟨key.data.map asciiUpper⟩

/-- Model of `Viper.GetString`: override, then environment (when
`AutomaticEnv` was called), then config file, then default, then `""`. -/
def ViperInstance.getString (v : ViperInstance) (env : List (String × String))
    (key : String) : String :=
  match lookupKey key v.overrides with
  | some s => s
  | none =>
    match (if v.envEnabled then lookupKey (envKey key) env else none) with
    | some s => s
    | none =>
      match lookupKey key v.configData with
      | some s => s
      | none => (lookupKey key v.defaults).getD ""

/-- Model of `Viper.Set`. -/
def ViperInstance.set (v : ViperInstance) (key val : String) : ViperInstance :=
  { v with overrides := (key, val) :: v.overrides }

/-- Model of `Viper.SetDefault`. -/
def ViperInstance.setDefault (v : ViperInstance) (key val : String) : ViperInstance :=
  { v with defaults := (key, val) :: v.defaults }

/-- One response of the bridge to `Authenticator.Authenticate`:
the `(apiKey, retry, err)` triple of the Go call. -/
structure AuthResponse where
  apiKey : String
  retry : Bool
  err : Option String
deriving Repr, DecidableEq

/-- Model of `authenticateWithBridgeIpOnce` (auth.go lines 122-133): a
retryable error is swallowed (empty key, nil error), a non-retryable error is
returned, otherwise the key from the response is returned. -/
def authenticateWithBridgeIpOnce (r : AuthResponse) : Except String String :=
  match r.err, r.retry with
  | some _, true => .ok ""
  | some e, false => .error e
  | none, _ => .ok r.apiKey

/-- The `context.WithTimeout(ctx, time.Minute)` deadline, in milliseconds. -/
def pairingTimeoutMs : Nat := 60 * 1000

/-- The `time.NewTicker(500 * time.Millisecond)` interval, in milliseconds. -/
def pairingTickIntervalMs : Nat := 500

/-- Error returned when the pairing deadline elapses (auth.go line 107). -/
def pairingTimeoutMsg : String := "timed out waiting for Hue Bridge to be authenticated"

/-- Number of ticker ticks that fire strictly before the one-minute deadline:
tick k fires at k * 500 ms, the context is done at 60000 ms, so ticks
1..119 are processed and the select then takes the timeout branch. -/
def maxPairingTicks : Nat := (pairingTimeoutMs - 1) / pairingTickIntervalMs

/-- Model of the polling loop of `authenticateWithBridgeIp` (auth.go lines
102-116): `fuel` is the number of ticks remaining before the context
deadline, `tick` indexes the bridge's responses; the second component of the
result counts how many pairing requests were issued. -/
def authPoll (bridge : Nat → AuthResponse) : Nat → Nat → Except String String × Nat
  | 0, tick => (.error pairingTimeoutMsg, tick)
  | fuel + 1, tick =>
    match authenticateWithBridgeIpOnce (bridge tick) with
    | .error e => (.error e, tick + 1)
    | .ok key =>
      if key = "" then authPoll bridge fuel (tick + 1) else (.ok key, tick + 1)

/-- Model of `authenticateWithBridgeIp` (auth.go lines 90-120).
`newAuthenticator` is the outcome of `openhue.NewAuthenticator(bridgeIp)`;
the bridge's successive responses are the `bridge` oracle. Returns the
result together with the number of pairing requests issued. -/
def authenticateWithBridgeIp (newAuthenticator : Except String Unit)
    (bridge : Nat → AuthResponse) : Except String String × Nat :=
  match newAuthenticator with
  | .error e => (.error ("failed to create authenticator: " ++ e), 0)
  | .ok _ => authPoll bridge maxPairingTicks 0

/-- The resolved credentials returned by `GetAuthConfig`. -/
structure AuthConfig where
  BridgeIp : String
  BridgeApiKey : String
deriving Repr, DecidableEq

/-- The external world `GetAuthConfig` runs against: process environment
variables, `os.UserHomeDir`, the parsed cache file (`none` when missing or
unreadable), the outcome of `BridgeDiscovery.Discover`, the outcome of
`openhue.NewAuthenticator`, the bridge's pairing responses, and whether
`SafeWriteConfigAs` fails (unwritable directory or pre-existing file). -/
structure World where
  env : List (String × String)
  userHomeDir : Except String String
  cacheFile : Option (List (String × String))
  discover : Except String String
  newAuthenticator : Except String Unit
  bridge : Nat → AuthResponse
  saveFails : Bool

/-- Invocation counts observed during one `GetAuthConfig` run. -/
structure Trace where
  discoveryCalls : Nat
  pairingCalls : Nat
  pairingTicks : Nat
  saveAttempted : Bool
  saveFailed : Bool
deriving Repr, DecidableEq

/-- Tail of `GetAuthConfig` after the discovery step (auth.go lines 65-88):
read the API key from `cfg`, run the pairing waiter when it is empty,
attempt the best-effort cache write, and return the final values read back
from `cfg`. The `SafeWriteConfigAs` error is only logged (line 80), so
`w.saveFails` flows into the trace alone, never into the result. -/
def getAuthPostDiscovery (useCache : Bool) (w : World) (cfg : ViperInstance)
    (discoveryCalls : Nat) : Except String AuthConfig × Trace :=
  if cfg.getString w.env "hue_bridge_api_key" = "" then
    match authenticateWithBridgeIp w.newAuthenticator w.bridge with
    | (.error e, ticks) =>
      (.error ("failed to authenticate with Hue Bridge: " ++ e),
       ⟨discoveryCalls, 1, ticks, false, false⟩)
    | (.ok k, ticks) =>
      let cfg := cfg.set "hue_bridge_api_key" k
      (.ok ⟨cfg.getString w.env "hue_bridge_ip", cfg.getString w.env "hue_bridge_api_key"⟩,
       ⟨discoveryCalls, 1, ticks, useCache, useCache && w.saveFails⟩)
  else
    (.ok ⟨cfg.getString w.env "hue_bridge_ip", cfg.getString w.env "hue_bridge_api_key"⟩,
     ⟨discoveryCalls, 0, 0, useCache, useCache && w.saveFails⟩)

/-- Model of `GetAuthConfig` (auth.go lines 25-88). Note the source calls
the package-level `viper.SetDefault` (lines 35-36) on the global viper
instance, not `cfg.SetDefault` on the freshly created `cfg := viper.New()`
it subsequently reads from, so `tfBridgeIp`/`tfBridgeApiKey` never become
defaults of `cfg`; `_globalViper` below receives them and is never read,
exactly as in the source. -/
def GetAuthConfig (tfBridgeIp tfBridgeApiKey : String) (useCache : Bool)
    (w : World) : Except String AuthConfig × Trace :=
  match w.userHomeDir with
  | .error e =>
    (.error ("failed to get user home directory: " ++ e), ⟨0, 0, 0, false, false⟩)
  | .ok _homeDir =>
    let _globalViper : ViperInstance :=
      ((⟨[], false, [], []⟩ : ViperInstance).setDefault "hue_bridge_ip" tfBridgeIp).setDefault
        "hue_bridge_api_key" tfBridgeApiKey
    let cfg : ViperInstance :=
      { overrides := []
        envEnabled := true
        configData := cond useCache (w.cacheFile.getD []) []
        defaults := [] }
    if cfg.getString w.env "hue_bridge_ip" = "" ∨ tfBridgeIp = "discover" then
      match w.discover with
      | .error e =>
        (.error ("failed to discover Hue Bridge: " ++ e), ⟨1, 0, 0, false, false⟩)
      | .ok ip => getAuthPostDiscovery useCache w (cfg.set "hue_bridge_ip" ip) 1
    else
      getAuthPostDiscovery useCache w cfg 0

/-- The process-wide state touched by `Configure`: the TLS configuration of
`http.DefaultTransport`, shared by every client using the default transport. -/
structure ProcessState where
  insecureSkipVerify : Bool
deriving Repr, DecidableEq

/-- The REST client built by `openhue.NewClientWithResponses`: the base
server URL and the fixed request-editor header. -/
structure HueClient where
  server : String
  requestHeaders : List (String × String)
deriving Repr, DecidableEq

/-- Model of the provider `Configure` method (provider.go lines 77-119):
resolve credentials via `GetAuthConfig`, build the REST client with base URL
`https://{bridgeIp}` and the `hue-application-key` header, then set
`InsecureSkipVerify` on the process-wide default transport (line 113).
`newClientErr` is the outcome of `openhue.NewClientWithResponses`. Returns
the final process state, the client handed to resources/data sources, and
the diagnostic error, if any. -/
def Configure (bridgeIp bridgeApiKey : String) (cache : Bool) (w : World)
    (newClientErr : Option String) (st : ProcessState) :
    ProcessState × Option HueClient × Option String :=
  match (GetAuthConfig bridgeIp bridgeApiKey cache w).1 with
  | .error e => (st, none, some ("failed to get auth config: " ++ e))
  | .ok authConfig =>
    match newClientErr with
    | some e => (st, none, some ("failed to create home: " ++ e))
    | none =>
      let client : HueClient :=
        { server := "https://" ++ authConfig.BridgeIp
          requestHeaders := [("hue-application-key", authConfig.BridgeApiKey)] }
      ({ st with insecureSkipVerify := true }, some client, none)

/-- The six bridge room archetype constants referenced by room.go. -/
inductive RoomArchetype
  | bedroom
  | bathroom
  | kitchen
  | dining
  | office
  | other
deriving Repr, DecidableEq

/-- Model of the `stringToRoomArchetype` map (room.go lines 261-268). -/
def stringToRoomArchetype : List (String × RoomArchetype) :=
  [("bedroom", .bedroom), ("bathroom", .bathroom), ("kitchen", .kitchen),
   ("dining", .dining), ("office", .office), ("other", .other)]

/-- Model of `mapStringToRoomArchetype` (room.go lines 270-273); the Go
`(value, ok)` pair becomes an `Option`. -/
def mapStringToRoomArchetype (archetype : String) : Option RoomArchetype :=
  lookupKey archetype stringToRoomArchetype

/-- The room resource model read from the Terraform plan. -/
structure RoomResourceModel where
  Name : String
  Id : String
  LightIds : List String
  Archetype : String
deriving Repr, DecidableEq

/-- A child entry of a room payload (`openhue.ResourceIdentifier`). -/
structure ResourceIdentifier where
  Rid : String
  Rtype : String
deriving Repr, DecidableEq

/-- The metadata block of a room payload. -/
structure RoomPutMetadata where
  Archetype : RoomArchetype
  Name : String
deriving Repr, DecidableEq

/-- The `openhue.RoomPut` payload built for create/update calls. -/
structure RoomPut where
  Metadata : Option RoomPutMetadata
  Children : Option (List ResourceIdentifier)
deriving Repr, DecidableEq

/-- Model of `buildRoomPutPayload` (room.go lines 275-304): an unrecognized
archetype string fails (the Go error renders `model.Archetype.String()`,
which quotes the value), otherwise the metadata and one `device` child per
light id are assembled. -/
def buildRoomPutPayload (model : RoomResourceModel) : Except String RoomPut :=
  match mapStringToRoomArchetype model.Archetype with
  | none =>
    .error ("failed to create room: invalid archetype \"" ++ model.Archetype ++ "\"")
  | some archetype =>
    .ok { Metadata := some ⟨archetype, model.Name⟩
          Children := some (model.LightIds.map fun rid => ⟨rid, "device"⟩) }

/-- Outcome of the front half of `Room.Create`: either a diagnostic error
added before any REST call, or the payload handed to
`CreateRoomWithResponse`. -/
inductive RoomCreateOutcome
  | errored (detail : String)
  | requested (payload : RoomPut)
deriving Repr, DecidableEq

/-- Model of `Room.Create` up to the REST call (room.go lines 99-110): a
payload-build failure is reported as a diagnostic and the method returns
before issuing the request; the second component counts REST requests
issued to the bridge. -/
def roomCreate (model : RoomResourceModel) : RoomCreateOutcome × Nat :=
  match buildRoomPutPayload model with
  | .error e => (.errored ("failed to create room: " ++ e), 0)
  | .ok putData => (.requested putData, 1)

lemma authPoll_retry_step (bridge : Nat → AuthResponse) (fuel tick : Nat)
    (h1 : (bridge tick).err.isSome = true) (h2 : (bridge tick).retry = true) :
    authPoll bridge (fuel + 1) tick = authPoll bridge fuel (tick + 1) := by
  rcases he : (bridge tick).err with _ | e
  · rw [he] at h1; simp at h1
  · simp [authPoll, authenticateWithBridgeIpOnce, he, h2]

lemma authPoll_succeeds (bridge : Nat → AuthResponse) (n : Nat) :
    ∀ fuel tick, n < fuel →
    (∀ i, i < n → (bridge (tick + i)).err.isSome = true ∧ (bridge (tick + i)).retry = true) →
    (bridge (tick + n)).err = none → (bridge (tick + n)).apiKey ≠ "" →
    authPoll bridge fuel tick = (.ok ((bridge (tick + n)).apiKey), tick + n + 1) := by
  induction n with
  | zero =>
    intro fuel tick hn _hr hnone hkey
    obtain ⟨fuel', rfl⟩ : ∃ f, fuel = f + 1 := ⟨fuel - 1, by omega⟩
    rw [Nat.add_zero] at hnone hkey ⊢
    simp [authPoll, authenticateWithBridgeIpOnce, hnone, hkey]
  | succ n ih =>
    intro fuel tick hn hr hnone hkey
    obtain ⟨fuel', rfl⟩ : ∃ f, fuel = f + 1 := ⟨fuel - 1, by omega⟩
    have h0 := hr 0 (Nat.succ_pos n)
    rw [Nat.add_zero] at h0
    rw [authPoll_retry_step bridge fuel' tick h0.1 h0.2]
    have hshift : tick + 1 + n = tick + (n + 1) := by omega
    have := ih fuel' (tick + 1) (by omega)
      (fun i hi => by
        have e : tick + 1 + i = tick + (i + 1) := by omega
        rw [e]
        exact hr (i + 1) (by omega))
      (by rw [hshift]; exact hnone) (by rw [hshift]; exact hkey)
    rw [this, hshift]

lemma authPoll_fails (bridge : Nat → AuthResponse) (n : Nat) (e : String) :
    ∀ fuel tick, n < fuel →
    (∀ i, i < n → (bridge (tick + i)).err.isSome = true ∧ (bridge (tick + i)).retry = true) →
    (bridge (tick + n)).err = some e → (bridge (tick + n)).retry = false →
    authPoll bridge fuel tick = (.error e, tick + n + 1) := by
  induction n with
  | zero =>
    intro fuel tick hn _hr herr hnr
    obtain ⟨fuel', rfl⟩ : ∃ f, fuel = f + 1 := ⟨fuel - 1, by omega⟩
    rw [Nat.add_zero] at herr hnr ⊢
    simp [authPoll, authenticateWithBridgeIpOnce, herr, hnr]
  | succ n ih =>
    intro fuel tick hn hr herr hnr
    obtain ⟨fuel', rfl⟩ : ∃ f, fuel = f + 1 := ⟨fuel - 1, by omega⟩
    have h0 := hr 0 (Nat.succ_pos n)
    rw [Nat.add_zero] at h0
    rw [authPoll_retry_step bridge fuel' tick h0.1 h0.2]
    have hshift : tick + 1 + n = tick + (n + 1) := by omega
    have := ih fuel' (tick + 1) (by omega)
      (fun i hi => by
        have eq : tick + 1 + i = tick + (i + 1) := by omega
        rw [eq]
        exact hr (i + 1) (by omega))
      (by rw [hshift]; exact herr) (by rw [hshift]; exact hnr)
    rw [this, hshift]

lemma authPoll_all_retry (bridge : Nat → AuthResponse)
    (h : ∀ i, (bridge i).err.isSome = true ∧ (bridge i).retry = true) :
    ∀ fuel tick, authPoll bridge fuel tick = (.error pairingTimeoutMsg, tick + fuel) := by
  intro fuel
  induction fuel with
  | zero => intro tick; simp [authPoll]
  | succ fuel ih =>
    intro tick
    rw [authPoll_retry_step bridge fuel tick (h tick).1 (h tick).2, ih (tick + 1)]
    congr 1
    omega

lemma authPoll_ok_nonempty (bridge : Nat → AuthResponse) :
    ∀ fuel tick key, (authPoll bridge fuel tick).1 = .ok key → key ≠ "" := by
  intro fuel
  induction fuel with
  | zero => intro tick key h; simp [authPoll] at h
  | succ fuel ih =>
    intro tick key h
    rw [authPoll] at h
    split at h
    · simp at h
    · rename_i k _ho
      by_cases hk : k = ""
      · rw [if_pos hk] at h
        exact ih (tick + 1) key h
      · rw [if_neg hk] at h
        simp at h
        exact h ▸ hk

/-- C4: when the bridge answers three "not yet authorized, please retry"
responses and then a success carrying key `k`, the pairing waiter stays in
the loop through the retries and returns `k` from the fourth request,
having issued exactly four pairing requests. -/
theorem pairing_three_retries_then_success (k : String) (hk : k ≠ "") :
    authenticateWithBridgeIp (.ok ())
      (fun t => if t < 3 then ⟨"", true, some "link button not pressed"⟩
                else ⟨k, false, none⟩) = (.ok k, 4) := by
  have h := authPoll_succeeds
    (fun t => if t < 3 then ⟨"", true, some "link button not pressed"⟩ else ⟨k, false, none⟩)
    3 maxPairingTicks 0 (by decide)
    (fun i hi => by simp [hi])
    (by norm_num) (by simpa using hk)
  rw [authenticateWithBridgeIp, h]
  norm_num

/-- C4 witness at the concrete key "abc123". -/
theorem pairing_three_retries_then_success_witness :
    authenticateWithBridgeIp (.ok ())
      (fun t => if t < 3 then ⟨"", true, some "link button not pressed"⟩
                else ⟨"abc123", false, none⟩) = (.ok "abc123", 4) :=
  pairing_three_retries_then_success "abc123" (by decide)

/-- C5: if the first `n` responses are retryable and response `n` is a
non-retryable error `e`, the waiter returns `e` from that very tick, having
issued exactly `n + 1` pairing requests and consumed no further ticks. -/
theorem pairing_fatal_error_returns_immediately (bridge : Nat → AuthResponse)
    (n : Nat) (e : String) (hn : n < maxPairingTicks)
    (hr : ∀ i, i < n → (bridge i).err.isSome = true ∧ (bridge i).retry = true)
    (he : (bridge n).err = some e) (hnr : (bridge n).retry = false) :
    authenticateWithBridgeIp (.ok ()) bridge = (.error e, n + 1) := by
  have h := authPoll_fails bridge n e maxPairingTicks 0 hn
    (fun i hi => by rw [Nat.zero_add]; exact hr i hi)
    (by rw [Nat.zero_add]; exact he) (by rw [Nat.zero_add]; exact hnr)
  rw [authenticateWithBridgeIp, h, Nat.zero_add]

/-- C5 witness: a fatal error on the very first tick. -/
theorem pairing_fatal_error_returns_immediately_witness :
    authenticateWithBridgeIp (.ok ())
      (fun _ => ⟨"", false, some "device unreachable"⟩)
      = (.error "device unreachable", 1) :=
  pairing_fatal_error_returns_immediately
    (fun _ => ⟨"", false, some "device unreachable"⟩) 0 "device unreachable"
    (by decide) (fun i hi => absurd hi (by omega)) rfl rfl

/-- C6: the waiter uses a fixed one-minute deadline and a fixed 500 ms tick
interval; when every tick yields a retryable "not yet authorized" response
it stops at the deadline with the timeout error instead of polling forever,
after the 119 ticks that fire before the deadline. -/
theorem pairing_all_retries_times_out (bridge : Nat → AuthResponse)
    (h : ∀ i, (bridge i).err.isSome = true ∧ (bridge i).retry = true) :
    authenticateWithBridgeIp (.ok ()) bridge = (.error pairingTimeoutMsg, maxPairingTicks)
    ∧ pairingTimeoutMs = 60 * 1000 ∧ pairingTickIntervalMs = 500 := by
  refine ⟨?_, rfl, rfl⟩
  rw [authenticateWithBridgeIp, authPoll_all_retry bridge h maxPairingTicks 0, Nat.zero_add]

/-- C6 witness: a bridge that always answers "not yet authorized". -/
theorem pairing_all_retries_times_out_witness :
    authenticateWithBridgeIp (.ok ()) (fun _ => ⟨"", true, some "link button not pressed"⟩)
      = (.error pairingTimeoutMsg, maxPairingTicks)
    ∧ pairingTimeoutMs = 60 * 1000 ∧ pairingTickIntervalMs = 500 :=
  pairing_all_retries_times_out (fun _ => ⟨"", true, some "link button not pressed"⟩)
    (fun _ => ⟨rfl, rfl⟩)

/-- C9: whenever `authenticateWithBridgeIp` returns without an error, the
returned API key is non-empty: the polling loop repeats while the key is
the empty string and every other exit path carries an error. -/
theorem pairing_success_key_nonempty (na : Except String Unit)
    (bridge : Nat → AuthResponse) (key : String)
    (h : (authenticateWithBridgeIp na bridge).1 = .ok key) : key ≠ "" := by
  rcases na with e | u
  · simp [authenticateWithBridgeIp] at h
  · rw [authenticateWithBridgeIp] at h
    exact authPoll_ok_nonempty bridge maxPairingTicks 0 key h

/-- C9 witness: a run whose first response already carries a key. -/
theorem pairing_success_key_nonempty_witness : ("issued-key" : String) ≠ "" :=
  pairing_success_key_nonempty (.ok ()) (fun _ => ⟨"issued-key", false, none⟩)
    "issued-key" rfl

/-- C1: evaluation of `GetAuthConfig` at explicit value "X", environment
value "Y" and cached value "Z" for both fields. The claimed precedence
(explicit first) would give "X"; the code resolves "Y", because the
defaults carrying the explicit values are set on the package-global viper
instance while the values are read from the fresh `cfg` instance. -/
theorem getAuthConfig_drops_explicit_values :
    (GetAuthConfig "X" "X" true
      { env := [("HUE_BRIDGE_IP", "Y"), ("HUE_BRIDGE_API_KEY", "Y")]
        userHomeDir := .ok "/home/user"
        cacheFile := some [("hue_bridge_ip", "Z"), ("hue_bridge_api_key", "Z")]
        discover := .error "no bridge found"
        newAuthenticator := .error "unreachable"
        bridge := fun _ => ⟨"", true, some "link button not pressed"⟩
        saveFails := false }).1 = .ok ⟨"Y", "Y"⟩ ∧
    (AuthConfig.mk "Y" "Y") ≠ (AuthConfig.mk "X" "X") := by
  exact ⟨rfl, by decide⟩

/-- C2: evaluation of `GetAuthConfig` at the explicit non-sentinel address
"192.168.1.5" with no environment overrides and no cache. The claim says
discovery is never invoked and the explicit address is used unchanged; the
code invokes the discovery probe once and returns the discovered address,
because the explicit address never reaches the `cfg` instance it reads. -/
theorem getAuthConfig_explicit_address_still_discovers :
    ((GetAuthConfig "192.168.1.5" "apikey123" false
      { env := []
        userHomeDir := .ok "/home/user"
        cacheFile := none
        discover := .ok "10.0.0.9"
        newAuthenticator := .ok ()
        bridge := fun _ => ⟨"generated-key", false, none⟩
        saveFails := false }).2.discoveryCalls = 1) ∧
    ((GetAuthConfig "192.168.1.5" "apikey123" false
      { env := []
        userHomeDir := .ok "/home/user"
        cacheFile := none
        discover := .ok "10.0.0.9"
        newAuthenticator := .ok ()
        bridge := fun _ => ⟨"generated-key", false, none⟩
        saveFails := false }).1 = .ok ⟨"10.0.0.9", "generated-key"⟩) := by
  exact ⟨rfl, rfl⟩

/-- C3: with a cache file holding a non-empty address `a` and non-empty key
`k`, `cacheEnabled = true`, empty explicit inputs and no environment
overrides, `GetAuthConfig` returns exactly the cached values and invokes
neither the discovery probe nor the pairing waiter, whatever those oracles
would have answered. -/
theorem getAuthConfig_cache_hit_returns_cached (a k home : String)
    (d : Except String String) (na : Except String Unit)
    (bridge : Nat → AuthResponse) (sf : Bool) (ha : a ≠ "") (hk : k ≠ "") :
    GetAuthConfig "" "" true
      { env := []
        userHomeDir := .ok home
        cacheFile := some [("hue_bridge_ip", a), ("hue_bridge_api_key", k)]
        discover := d
        newAuthenticator := na
        bridge := bridge
        saveFails := sf }
      = (.ok ⟨a, k⟩, ⟨0, 0, 0, true, sf⟩) := by
  simp [GetAuthConfig, getAuthPostDiscovery, ViperInstance.getString,
    ViperInstance.set, lookupKey, ha, hk]

/-- C3 witness at a concrete cache file. -/
theorem getAuthConfig_cache_hit_returns_cached_witness :
    GetAuthConfig "" "" true
      { env := []
        userHomeDir := .ok "/home/user"
        cacheFile := some [("hue_bridge_ip", "1.2.3.4"), ("hue_bridge_api_key", "cached-key")]
        discover := .error "no bridge found"
        newAuthenticator := .error "unreachable"
        bridge := fun _ => ⟨"", true, some "link button not pressed"⟩
        saveFails := false }
      = (.ok ⟨"1.2.3.4", "cached-key"⟩, ⟨0, 0, 0, true, false⟩) :=
  getAuthConfig_cache_hit_returns_cached "1.2.3.4" "cached-key" "/home/user"
    (.error "no bridge found") (.error "unreachable")
    (fun _ => ⟨"", true, some "link button not pressed"⟩) false
    (by decide) (by decide)

/-- C7: whether the cache write succeeds or fails never changes the value
or error status returned by `GetAuthConfig` (the `SafeWriteConfigAs` error
is only logged), and the write is attempted exactly when `useCache` is true
and the flow reaches the final step successfully. -/
theorem getAuthConfig_save_failure_does_not_change_result
    (tf tfk : String) (c : Bool) (w : World) (b : Bool) :
    ((GetAuthConfig tf tfk c { w with saveFails := b }).1
      = (GetAuthConfig tf tfk c w).1) ∧
    ((GetAuthConfig tf tfk c w).2.saveAttempted
      = (c && ((GetAuthConfig tf tfk c w).1.toOption.isSome))) := by
  obtain ⟨env, home, cache, disc, na, bridge, sf⟩ := w
  have hpost : ∀ (cfg : ViperInstance) (dc : Nat) (b' : Bool),
      (getAuthPostDiscovery c ⟨env, home, cache, disc, na, bridge, b'⟩ cfg dc).1
        = (getAuthPostDiscovery c ⟨env, home, cache, disc, na, bridge, sf⟩ cfg dc).1 := by
    intro cfg dc b'
    rw [getAuthPostDiscovery, getAuthPostDiscovery]
    split
    · rcases authenticateWithBridgeIp na bridge with ⟨res | res, ticks⟩ <;> rfl
    · rfl
  have hattempt : ∀ (cfg : ViperInstance) (dc : Nat),
      (getAuthPostDiscovery c ⟨env, home, cache, disc, na, bridge, sf⟩ cfg dc).2.saveAttempted
        = (c && ((getAuthPostDiscovery c ⟨env, home, cache, disc, na, bridge, sf⟩ cfg dc).1.toOption.isSome)) := by
    intro cfg dc
    rw [getAuthPostDiscovery]
    split
    · rcases authenticateWithBridgeIp na bridge with ⟨res | res, ticks⟩ <;>
        simp [Except.toOption]
    · simp [Except.toOption]
  refine ⟨?_, ?_⟩
  · rw [GetAuthConfig, GetAuthConfig]
    cases home with
    | error e => rfl
    | ok h =>
      simp only []
      split
      · rcases disc with e | ip
        · rfl
        · exact hpost _ 1 b
      · exact hpost _ 0 b
  · rw [GetAuthConfig]
    cases home with
    | error e => simp [Except.toOption]
    | ok h =>
      simp only []
      split
      · rcases disc with e | ip
        · simp [Except.toOption]
        · exact hattempt _ 1
      · exact hattempt _ 0

/-- C8: a successful `Configure` sets `InsecureSkipVerify = true` on the
process-wide default transport, whatever the prior process state was (the
effect lives in the shared `ProcessState`, not in the client record), while
the REST client handed to resources is built with base URL
`https://{bridgeAddress}` and the fixed `hue-application-key` header. -/
theorem configure_success_disables_tls_and_builds_client
    (bridgeIp bridgeApiKey : String) (cache : Bool) (w : World)
    (st : ProcessState) (ac : AuthConfig)
    (hauth : (GetAuthConfig bridgeIp bridgeApiKey cache w).1 = .ok ac) :
    Configure bridgeIp bridgeApiKey cache w none st
      = (⟨true⟩, some ⟨"https://" ++ ac.BridgeIp,
          [("hue-application-key", ac.BridgeApiKey)]⟩, none) := by
  rw [Configure, hauth]

/-- C8 witness: credentials resolved from environment variables, starting
from a process state with TLS verification enabled. -/
theorem configure_success_disables_tls_and_builds_client_witness :
    Configure "" "" false
      { env := [("HUE_BRIDGE_IP", "1.2.3.4"), ("HUE_BRIDGE_API_KEY", "env-key")]
        userHomeDir := .ok "/home/user"
        cacheFile := none
        discover := .error "no bridge found"
        newAuthenticator := .error "unreachable"
        bridge := fun _ => ⟨"", true, some "link button not pressed"⟩
        saveFails := false } none ⟨false⟩
      = (⟨true⟩, some ⟨"https://" ++ "1.2.3.4",
          [("hue-application-key", "env-key")]⟩, none) :=
  configure_success_disables_tls_and_builds_client "" "" false
    { env := [("HUE_BRIDGE_IP", "1.2.3.4"), ("HUE_BRIDGE_API_KEY", "env-key")]
      userHomeDir := .ok "/home/user"
      cacheFile := none
      discover := .error "no bridge found"
      newAuthenticator := .error "unreachable"
      bridge := fun _ => ⟨"", true, some "link button not pressed"⟩
      saveFails := false } ⟨false⟩ ⟨"1.2.3.4", "env-key"⟩ rfl

/-- C10: an archetype string outside the six recognized values makes
`buildRoomPutPayload` fail and `Room.Create` report the error having issued
no REST request; each of the six recognized values maps to the
corresponding bridge archetype constant. -/
theorem room_create_invalid_archetype_errors (model : RoomResourceModel)
    (h1 : model.Archetype ≠ "bedroom") (h2 : model.Archetype ≠ "bathroom")
    (h3 : model.Archetype ≠ "kitchen") (h4 : model.Archetype ≠ "dining")
    (h5 : model.Archetype ≠ "office") (h6 : model.Archetype ≠ "other") :
    buildRoomPutPayload model
      = .error ("failed to create room: invalid archetype \"" ++ model.Archetype ++ "\"")
    ∧ roomCreate model
      = (.errored ("failed to create room: failed to create room: invalid archetype \""
          ++ model.Archetype ++ "\""), 0)
    ∧ mapStringToRoomArchetype "bedroom" = some .bedroom
    ∧ mapStringToRoomArchetype "bathroom" = some .bathroom
    ∧ mapStringToRoomArchetype "kitchen" = some .kitchen
    ∧ mapStringToRoomArchetype "dining" = some .dining
    ∧ mapStringToRoomArchetype "office" = some .office
    ∧ mapStringToRoomArchetype "other" = some .other := by
  have hmap : mapStringToRoomArchetype model.Archetype = none := by
    simp [mapStringToRoomArchetype, stringToRoomArchetype, lookupKey,
      h1, h2, h3, h4, h5, h6]
  refine ⟨?_, ?_, rfl, rfl, rfl, rfl, rfl, rfl⟩
  · rw [buildRoomPutPayload, hmap]
  · rw [roomCreate, buildRoomPutPayload, hmap]
    rfl

/-- C10 witness at the unrecognized archetype string "attic". -/
theorem room_create_invalid_archetype_errors_witness :
    buildRoomPutPayload ⟨"My room", "", ["l1"], "attic"⟩
      = .error ("failed to create room: invalid archetype \"" ++ "attic" ++ "\"")
    ∧ roomCreate ⟨"My room", "", ["l1"], "attic"⟩
      = (.errored ("failed to create room: failed to create room: invalid archetype \""
          ++ "attic" ++ "\""), 0)
    ∧ mapStringToRoomArchetype "bedroom" = some .bedroom
    ∧ mapStringToRoomArchetype "bathroom" = some .bathroom
    ∧ mapStringToRoomArchetype "kitchen" = some .kitchen
    ∧ mapStringToRoomArchetype "dining" = some .dining
    ∧ mapStringToRoomArchetype "office" = some .office
    ∧ mapStringToRoomArchetype "other" = some .other :=
  room_create_invalid_archetype_errors ⟨"My room", "", ["l1"], "attic"⟩
    (by decide) (by decide) (by decide) (by decide) (by decide) (by decide)

end Openhue
